import Mathlib

/-!
Verification of the fixposition_driver protocol-decoding core against its
specification.  The C++ sources embedded here are
`fixposition_driver_lib/src/tf.cpp` (TfConverter::ConvertTokens) and
`fixposition_driver_ros2/src/fixposition_driver_node.cpp` (the run loop,
observer registration and the BestGnssPos publisher).  Doubles are modelled
as exact rationals; machine behaviour that matters (the float-to-uint64
cast in the reconnect-delay computation) is modelled explicitly.
-/

namespace Fixposition

/-- The TF record produced by the converter.  The declaring header
(`fixposition_driver_lib/converter/tf.hpp`) is not under src/; the fields
are exactly those `TfConverter::ConvertTokens` writes: parent frame id,
child frame id, translation 3-vector and scalar-first rotation quaternion.
Vector components are modelled as exact rationals. -/
structure TfData where
  frame_id : String
  child_frame_id : String
  translation : ℚ × ℚ × ℚ
  rotation : ℚ × ℚ × ℚ × ℚ
  deriving Repr, DecidableEq

/-- Modelled from the spec: the default/empty `TfData()` value that the
converter stores on a failed decode ("internal record storage is reset to
a default/empty value"); the constructor lives in the header that is not
under src/. -/
def defaultTfData : TfData :=
  { frame_id := "", child_frame_id := "", translation := (0, 0, 0),
    rotation := (0, 0, 0, 0) }

/-- Modelled from the spec: the numeric token parse used by
`Vector3ToEigen`/`Vector4ToEigen` (helper code of this repository, not
under src/).  Per the spec, non-numeric text in a numeric field is a
parse failure.  Accepts an optional sign, a non-empty run of decimal
digits and an optional non-empty fractional part, returning the exact
decimal value as a rational; anything else fails. -/
def parseDecimal (s : String) : Option ℚ :=
  let cs := s.data
  let signed : ℚ × List Char :=
    match cs with
    | '-' :: rest => (-1, rest)
    | '+' :: rest => (1, rest)
    | _ => (1, cs)
  let sign := signed.1
  let body := signed.2
  let intPart := body.takeWhile Char.isDigit
  let rest := body.dropWhile Char.isDigit
  if intPart.isEmpty then none
  else
    let iv : ℕ := intPart.foldl (fun a c => a * 10 + (c.toNat - 48)) 0
    match rest with
    | [] => some (sign * iv)
    | '.' :: fracPart =>
      if fracPart.isEmpty || !(fracPart.all Char.isDigit) then none
      else
        let fv : ℕ := fracPart.foldl (fun a c => a * 10 + (c.toNat - 48)) 0
        some (sign * ((iv : ℚ) + (fv : ℚ) / (10 : ℚ) ^ fracPart.length))
    | _ => none

/-- Decode failures of the converter, per the spec error taxonomy.  In the
C++ the field-count branch of `ConvertTokens` reports via a diagnostic
line carrying the actual token count (the expected count 12 is the
constant in the check); the numeric-parse failure kind is modelled from
the spec since the parse helpers are not under src/. -/
inductive DecodeError where
  | fieldCountMismatch (expected actual : ℕ)
  | numericParseFailure (fieldIdx : ℕ)
  deriving Repr, DecidableEq

/-- A registered observer: an identifier plus its behaviour on a record.
`throws d = true` models a callback that throws a C++ exception when
invoked with `d`; the callback type `void(const TfData&)` has no error
return channel. -/
structure Observer where
  id : ℕ
  throws : TfData → Bool

/-- The dispatch loop of `ConvertTokens`: `for (auto& ob : obs_) ob(msg_);`.
There is no try/catch, so C++ exception semantics apply: each observer is
invoked in turn with the same record; if one throws, the remaining
observers are not invoked and the exception escapes the loop.  Returns
the invocations performed (observer id paired with the record it was
passed, in order) and whether an exception escaped. -/
def notifyAll : List Observer → TfData → List (ℕ × TfData) × Bool
  | [], _ => ([], false)
  | ob :: rest, d =>
    if ob.throws d then ([(ob.id, d)], true)
    else
      let tail := notifyAll rest d
      ((ob.id, d) :: tail.1, tail.2)

/-- Parse the token at index `i` of the frame, failing with the field
index.  Index access mirrors `tokens.at(i)`; every call site is guarded
by the exact count check, so the default never fires there. -/
def parseAt (tokens : List String) (i : ℕ) : Except ℕ ℚ :=
  match parseDecimal (tokens.getD i "") with
  | none => Except.error i
  | some v => Except.ok v

/-- Parse the numeric fields of a TF frame in the order `ConvertTokens`
evaluates them: translation x,y,z at token indices 5..7
(`Vector3ToEigen`), then orientation w,x,y,z at token indices 8..11
(`Vector4ToEigen`).  The first failing field index is reported. -/
def parseFields (tokens : List String) :
    Except ℕ ((ℚ × ℚ × ℚ) × (ℚ × ℚ × ℚ × ℚ)) := do
  let tx ← parseAt tokens 5
  let ty ← parseAt tokens 6
  let tz ← parseAt tokens 7
  let qw ← parseAt tokens 8
  let qx ← parseAt tokens 9
  let qy ← parseAt tokens 10
  let qz ← parseAt tokens 11
  return ((tx, ty, tz), (qw, qx, qy, qz))

/-- Outcome of one `ConvertTokens` call: the retained record `msg_` after
the call, the reported decode failure if any, the observer invocations
performed, and whether an observer exception escaped the call. -/
structure ConvertResult where
  msg : TfData
  err : Option DecodeError
  invoked : List (ℕ × TfData)
  escaped : Bool

/-- The record written to `msg_` on the success path of `ConvertTokens`:
the source and target frame ids are the raw frame-name tokens at indices
3 and 4 prefixed with the fixed namespace prefix `FP_`; the translation
and rotation are the parsed numeric fields.  All four fields of the
stored record are overwritten. -/
def tfRecord (prev : TfData) (tokens : List String)
    (fields : (ℚ × ℚ × ℚ) × (ℚ × ℚ × ℚ × ℚ)) : TfData :=
  { prev with
    frame_id := "FP_" ++ tokens.getD 3 "",
    child_frame_id := "FP_" ++ tokens.getD 4 "",
    translation := fields.1,
    rotation := fields.2 }

/-- `TfConverter::ConvertTokens` (tf.cpp lines 34-53).  If the token count
is not 12, a field-count diagnostic is reported, `msg_` is reset to the
default value and the function returns before the observer loop.
Otherwise the frame ids are formed by prefixing tokens 3 and 4 with
`FP_`, the numeric fields are parsed, and on success every registered
observer is run on the new record.  The numeric-parse failure branch is
modelled from the spec (the parse helpers are not under src/): the frame
is dropped, the record is reset to the default value and no observer is
invoked. -/
def convertTokens (obs : List Observer) (prev : TfData)
    (tokens : List String) : ConvertResult :=
  if tokens.length ≠ 12 then
    { msg := defaultTfData,
      err := some (DecodeError.fieldCountMismatch 12 tokens.length),
      invoked := [], escaped := false }
  else
    match parseFields tokens with
    | Except.error idx =>
      { msg := defaultTfData,
        err := some (DecodeError.numericParseFailure idx),
        invoked := [], escaped := false }
    | Except.ok fields =>
      let msg := tfRecord prev tokens fields
      let note := notifyAll obs msg
      { msg := msg, err := none, invoked := note.1, escaped := note.2 }

/-- One full decode cycle over the frames delivered by a read, folding the
converter state through `ConvertTokens` frame by frame: the loop continues
with the next frame after a decode failure (decode failures are recovered
locally); an observer exception, which `ConvertTokens` does not catch,
aborts the cycle.  Returns the final retained record, the per-frame error
reports, and whether an observer exception escaped. -/
def decodeCycle (obs : List Observer) :
    TfData → List (List String) → TfData × List (Option DecodeError) × Bool
  | st, [] => (st, [], false)
  | st, frame :: frames =>
    let r := convertTokens obs st frame
    if r.escaped then (r.msg, [r.err], true)
    else
      let rest := decodeCycle obs r.msg frames
      (rest.1, r.err :: rest.2.1, rest.2.2)

/-- The C++ cast `(uint64_t)x` applied to a nonnegative floating-point
seconds value truncates toward zero, i.e. takes the floor.  The
configured value is modelled as an exact rational. -/
def castToUInt64 (q : ℚ) : ℕ := (⌊q⌋).toNat

/-- The reconnect-delay computation of `FixpositionDriverNode::Run`
(fixposition_driver_node.cpp lines 67-68):
`std::chrono::nanoseconds((uint64_t)params_.fp_output.reconnect_delay *
1000 * 1000 * 1000)`.  The configured seconds value is cast to `uint64_t`
first and only then multiplied into nanoseconds. -/
def reconnectDelayNs (delaySec : ℚ) : ℕ :=
  castToUInt64 delaySec * 1000 * 1000 * 1000

/-- The externally visible steps of one iteration of the `Run` while
body. -/
inductive Action where
  | runOnce
  | spinSome
  | printReconnect
  | reconnectSleep (ns : ℕ)
  | connect
  | rateSleep
  deriving Repr, DecidableEq

/-- One iteration of the while body of `FixpositionDriverNode::Run`
(fixposition_driver_node.cpp lines 70-84): run one read/decode cycle,
service pending ROS messages, then either sleep for the fixed-rate limiter
(healthy connection) or print the reconnect diagnostic, sleep for the
reconnect delay and attempt to reconnect (connection loss).  The
fixed-rate sleep is skipped on the reconnect path. -/
def runIteration (delayNs : ℕ) (connectionOk : Bool) : List Action :=
  [Action.runOnce, Action.spinSome] ++
    (if connectionOk then [Action.rateSleep]
     else [Action.printReconnect, Action.reconnectSleep delayNs, Action.connect])

/-- The `while (rclcpp::ok())` loop of `Run`: `outcomes` lists the
connection result of each cycle that occurs before the external shutdown
signal flips `rclcpp::ok()`; the loop body runs once per such cycle and
the loop stops only when the schedule is exhausted (the shutdown signal),
never because of a cycle outcome. -/
def run (delayNs : ℕ) : List Bool → List Action
  | [] => []
  | ok :: rest => runIteration delayNs ok ++ run delayNs rest

/-- The NavSatFix record produced by `NovToData` from a BestGnssPos
message (NovToData itself is repository code not under src/; the publish
decision embedded below only inspects the resulting record's frame id).
Numeric payload modelled as exact rationals. -/
structure NavSatFixData where
  frame_id : String
  latitude : ℚ
  longitude : ℚ
  altitude : ℚ
  deriving Repr, DecidableEq

/-- The two GNSS NavSatFix outputs of the node. -/
inductive GnssChannel where
  | gnss1
  | gnss2
  deriving Repr, DecidableEq

/-- The publish decision of
`FixpositionDriverNode::BestGnssPosToPublishNavSatFix`
(fixposition_driver_node.cpp lines 207-227): the gnss1 output is used
when the record's frame id is `GNSS1` or `GNSS` and the gnss1 publisher
has a subscriber; the gnss2 output when the frame id is `GNSS2` and the
gnss2 publisher has a subscriber; any other frame id publishes nothing. -/
def bestGnssPosToPublishNavSatFix (navSatFix : NavSatFixData)
    (gnss1Subs gnss2Subs : ℕ) : List (GnssChannel × NavSatFixData) :=
  if navSatFix.frame_id = "GNSS1" ∨ navSatFix.frame_id = "GNSS" then
    if 0 < gnss1Subs then [(GnssChannel.gnss1, navSatFix)] else []
  else if navSatFix.frame_id = "GNSS2" then
    if 0 < gnss2Subs then [(GnssChannel.gnss2, navSatFix)] else []
  else []

/-- The TF observer lambda registered by
`FixpositionDriverNode::RegisterObservers` for the `TF` format
(fixposition_driver_node.cpp lines 174-195).  `TfDataToMsg` (repository
code not under src/) copies the record's frame ids into the outgoing
transform per the spec's output contract, so the gate condition is stated
on the record's fields directly.  When the record maps `FP_POI` to
`FP_IMUH`, the rotation is converted to Euler angles by `gnss_tf::QuatToEul`
(external, abstracted as the parameter `quatToEul`), the yaw component is
overwritten with zero, and the vector is published with frame id
`FP_POI`; any other record publishes nothing here.  Returned is the list
of published (frame id, yaw-pitch-roll) pairs. -/
def tfObserverImuYpr (quatToEul : ℚ × ℚ × ℚ × ℚ → ℚ × ℚ × ℚ)
    (data : TfData) : List (String × (ℚ × ℚ × ℚ)) :=
  if data.child_frame_id = "FP_IMUH" ∧ data.frame_id = "FP_POI" then
    let e := quatToEul data.rotation
    [("FP_POI", (0, e.2.1, e.2.2))]
  else []

/-- The concrete 12-token transform frame of the spec's scenario. -/
def demoFrame : List String :=
  ["$FP", "TF", "1", "POI", "ECEF",
    "1.0", "2.0", "3.0", "1.0", "0.0", "0.0", "0.0"]

/-- The same frame with non-numeric text in the first numeric field
(token index 5). -/
def badNumericFrame : List String :=
  ["$FP", "TF", "1", "POI", "ECEF",
    "abc", "2.0", "3.0", "1.0", "0.0", "0.0", "0.0"]

/-- A concrete decoded TF record mapping `FP_POI` to `FP_IMUH`, as the
IMU yaw-pitch-roll observer expects. -/
def demoImuhTf : TfData :=
  { frame_id := "FP_POI", child_frame_id := "FP_IMUH",
    translation := (0, 0, 0), rotation := (1, 0, 0, 0) }

theorem parseDecimal_one : parseDecimal "1.0" = some 1 := by
  have h : parseDecimal "1.0" =
      some ((1 : ℚ) * (((1 : ℕ) : ℚ) + ((0 : ℕ) : ℚ) / (10 : ℚ) ^ 1)) := rfl
  rw [h]; norm_num

theorem parseDecimal_two : parseDecimal "2.0" = some 2 := by
  have h : parseDecimal "2.0" =
      some ((1 : ℚ) * (((2 : ℕ) : ℚ) + ((0 : ℕ) : ℚ) / (10 : ℚ) ^ 1)) := rfl
  rw [h]; norm_num

theorem parseDecimal_three : parseDecimal "3.0" = some 3 := by
  have h : parseDecimal "3.0" =
      some ((1 : ℚ) * (((3 : ℕ) : ℚ) + ((0 : ℕ) : ℚ) / (10 : ℚ) ^ 1)) := rfl
  rw [h]; norm_num

theorem parseDecimal_zero : parseDecimal "0.0" = some 0 := by
  have h : parseDecimal "0.0" =
      some ((1 : ℚ) * (((0 : ℕ) : ℚ) + ((0 : ℕ) : ℚ) / (10 : ℚ) ^ 1)) := rfl
  rw [h]; norm_num

theorem parseDecimal_abc : parseDecimal "abc" = none := rfl

theorem parseFields_of_parses (tokens : List String)
    (tx ty tz qw qx qy qz : ℚ)
    (h5 : parseDecimal (tokens.getD 5 "") = some tx)
    (h6 : parseDecimal (tokens.getD 6 "") = some ty)
    (h7 : parseDecimal (tokens.getD 7 "") = some tz)
    (h8 : parseDecimal (tokens.getD 8 "") = some qw)
    (h9 : parseDecimal (tokens.getD 9 "") = some qx)
    (h10 : parseDecimal (tokens.getD 10 "") = some qy)
    (h11 : parseDecimal (tokens.getD 11 "") = some qz) :
    parseFields tokens = Except.ok ((tx, ty, tz), (qw, qx, qy, qz)) := by
  unfold parseFields parseAt
  rw [h5, h6, h7, h8, h9, h10, h11]
  rfl

theorem parseFields_demoFrame :
    parseFields demoFrame = Except.ok ((1, 2, 3), (1, 0, 0, 0)) :=
  parseFields_of_parses demoFrame 1 2 3 1 0 0 0
    parseDecimal_one parseDecimal_two parseDecimal_three parseDecimal_one
    parseDecimal_zero parseDecimal_zero parseDecimal_zero

theorem parseFields_badNumericFrame :
    parseFields badNumericFrame = Except.error 5 := rfl

theorem notifyAll_no_throw (obs : List Observer) (d : TfData)
    (h : ∀ ob ∈ obs, ob.throws d = false) :
    notifyAll obs d = (obs.map (fun ob => (ob.id, d)), false) := by
  induction obs with
  | nil => rfl
  | cons ob rest ih =>
    have h1 : ob.throws d = false := h ob (List.mem_cons_self ob rest)
    have h2 := ih (fun o ho => h o (List.mem_cons_of_mem ob ho))
    simp [notifyAll, h1, h2]

theorem notifyAll_throw (pre : List Observer) (ob : Observer)
    (post : List Observer) (d : TfData)
    (hpre : ∀ o ∈ pre, o.throws d = false) (hob : ob.throws d = true) :
    notifyAll (pre ++ ob :: post) d =
      (pre.map (fun o => (o.id, d)) ++ [(ob.id, d)], true) := by
  induction pre with
  | nil => simp [notifyAll, hob]
  | cons o rest ih =>
    have h1 : o.throws d = false := hpre o (List.mem_cons_self o rest)
    have h2 := ih (fun o' ho => hpre o' (List.mem_cons_of_mem o ho))
    simp [notifyAll, h1, h2]

/-- Claim C1: for every 12-token transform frame whose numeric fields
parse, `ConvertTokens` succeeds and produces the record whose source
frame id is `FP_` prepended to token 3, whose target frame id is `FP_`
prepended to token 4, whose translation is the parsed values of tokens
5..7 and whose rotation is the parsed values of tokens 8..11 in
scalar-first order. -/
theorem convertTokens_field_mapping (obs : List Observer) (prev : TfData)
    (tokens : List String) (tx ty tz qw qx qy qz : ℚ)
    (h12 : tokens.length = 12)
    (h5 : parseDecimal (tokens.getD 5 "") = some tx)
    (h6 : parseDecimal (tokens.getD 6 "") = some ty)
    (h7 : parseDecimal (tokens.getD 7 "") = some tz)
    (h8 : parseDecimal (tokens.getD 8 "") = some qw)
    (h9 : parseDecimal (tokens.getD 9 "") = some qx)
    (h10 : parseDecimal (tokens.getD 10 "") = some qy)
    (h11 : parseDecimal (tokens.getD 11 "") = some qz) :
    (convertTokens obs prev tokens).err = none ∧
    (convertTokens obs prev tokens).msg =
      { frame_id := "FP_" ++ tokens.getD 3 "",
        child_frame_id := "FP_" ++ tokens.getD 4 "",
        translation := (tx, ty, tz),
        rotation := (qw, qx, qy, qz) } := by
  have hok := parseFields_of_parses tokens tx ty tz qw qx qy qz
    h5 h6 h7 h8 h9 h10 h11
  simp [convertTokens, h12, hok, tfRecord]

/-- Claim C1 witness: the spec's concrete scenario frame decodes to
source-frame id `FP_POI`, target-frame id `FP_ECEF`, translation
`(1, 2, 3)` and rotation `(1, 0, 0, 0)`. -/
theorem convertTokens_field_mapping_witness :
    (convertTokens [] defaultTfData demoFrame).err = none ∧
    (convertTokens [] defaultTfData demoFrame).msg =
      { frame_id := "FP_POI", child_frame_id := "FP_ECEF",
        translation := (1, 2, 3), rotation := (1, 0, 0, 0) } := by
  have h := convertTokens_field_mapping [] defaultTfData demoFrame
    1 2 3 1 0 0 0 rfl parseDecimal_one parseDecimal_two parseDecimal_three
    parseDecimal_one parseDecimal_zero parseDecimal_zero parseDecimal_zero
  exact ⟨h.1, h.2⟩

/-- Claim C2: for every transform frame whose token count is not 12,
`ConvertTokens` fails with a field-count mismatch carrying the expected
count 12 and the actual count, the retained record is reset to the
default/empty value, and no observer is invoked. -/
theorem convertTokens_field_count_mismatch (obs : List Observer)
    (prev : TfData) (tokens : List String) (h : tokens.length ≠ 12) :
    convertTokens obs prev tokens =
      { msg := defaultTfData,
        err := some (DecodeError.fieldCountMismatch 12 tokens.length),
        invoked := [], escaped := false } := by
  simp [convertTokens, h]

/-- Claim C2 witness: the spec scenario's 10-token frame yields a
field-count mismatch with expected 12, actual 10, the default record and
no observer invocation. -/
theorem convertTokens_field_count_mismatch_witness :
    convertTokens [Observer.mk 1 (fun _ => false)] defaultTfData
        (List.take 10 demoFrame) =
      { msg := defaultTfData,
        err := some (DecodeError.fieldCountMismatch 12 10),
        invoked := [], escaped := false } := by
  have h := convertTokens_field_count_mismatch
    [Observer.mk 1 (fun _ => false)] defaultTfData (List.take 10 demoFrame)
    (by decide)
  simpa using h

/-- Claim C3: on every successful decode in which no callback throws,
`ConvertTokens` invokes every registered observer exactly once,
synchronously and in registration order, passing every observer the same
newly produced record. -/
theorem convertTokens_notifies_in_order (obs : List Observer)
    (prev : TfData) (tokens : List String)
    (fields : (ℚ × ℚ × ℚ) × (ℚ × ℚ × ℚ × ℚ))
    (h12 : tokens.length = 12)
    (hok : parseFields tokens = Except.ok fields)
    (hnt : ∀ ob ∈ obs, ob.throws (tfRecord prev tokens fields) = false) :
    convertTokens obs prev tokens =
      { msg := tfRecord prev tokens fields,
        err := none,
        invoked := obs.map (fun ob => (ob.id, tfRecord prev tokens fields)),
        escaped := false } := by
  have hn := notifyAll_no_throw obs (tfRecord prev tokens fields) hnt
  simp [convertTokens, h12, hok, hn]

/-- Claim C3 witness: three observers registered in the order 1, 2, 3 are
invoked in exactly that order on the spec's concrete frame, each with the
decoded record. -/
theorem convertTokens_notifies_in_order_witness :
    convertTokens
        [Observer.mk 1 (fun _ => false), Observer.mk 2 (fun _ => false),
          Observer.mk 3 (fun _ => false)]
        defaultTfData demoFrame =
      { msg := tfRecord defaultTfData demoFrame ((1, 2, 3), (1, 0, 0, 0)),
        err := none,
        invoked :=
          [(1, tfRecord defaultTfData demoFrame ((1, 2, 3), (1, 0, 0, 0))),
            (2, tfRecord defaultTfData demoFrame ((1, 2, 3), (1, 0, 0, 0))),
            (3, tfRecord defaultTfData demoFrame ((1, 2, 3), (1, 0, 0, 0)))],
        escaped := false } := by
  have h := convertTokens_notifies_in_order
    [Observer.mk 1 (fun _ => false), Observer.mk 2 (fun _ => false),
      Observer.mk 3 (fun _ => false)]
    defaultTfData demoFrame ((1, 2, 3), (1, 0, 0, 0)) rfl
    parseFields_demoFrame (by intro ob hob; fin_cases hob <;> rfl)
  simpa using h

/-- Claim C4 counterexample: with observers 1, 2, 3 registered in that
order and observer 2 throwing, decoding the spec's concrete frame leaves
observer 3 uninvoked and lets the exception escape the dispatch loop:
the dispatch loop of `ConvertTokens` has no catch boundary. -/
theorem convertTokens_throw_counterexample :
    ((convertTokens
        [Observer.mk 1 (fun _ => false), Observer.mk 2 (fun _ => true),
          Observer.mk 3 (fun _ => false)]
        defaultTfData demoFrame).escaped = true) ∧
    ¬ (3 ∈ ((convertTokens
        [Observer.mk 1 (fun _ => false), Observer.mk 2 (fun _ => true),
          Observer.mk 3 (fun _ => false)]
        defaultTfData demoFrame).invoked.map Prod.fst)) := by
  have hl : demoFrame.length = 12 := rfl
  simp [convertTokens, hl, parseFields_demoFrame, notifyAll]

/-- Claim C4 as amended: if an observer throws during dispatch of a
successful decode, the earlier observers have been invoked, the throwing
observer was invoked, the remaining observers are NOT invoked, and the
exception propagates out of `ConvertTokens` (there is no catch at the
dispatch boundary). -/
theorem convertTokens_throw_stops_dispatch (pre : List Observer)
    (ob : Observer) (post : List Observer) (prev : TfData)
    (tokens : List String) (fields : (ℚ × ℚ × ℚ) × (ℚ × ℚ × ℚ × ℚ))
    (h12 : tokens.length = 12)
    (hok : parseFields tokens = Except.ok fields)
    (hpre : ∀ o ∈ pre, o.throws (tfRecord prev tokens fields) = false)
    (hob : ob.throws (tfRecord prev tokens fields) = true) :
    (convertTokens (pre ++ ob :: post) prev tokens).invoked =
      pre.map (fun o => (o.id, tfRecord prev tokens fields)) ++
        [(ob.id, tfRecord prev tokens fields)] ∧
    (convertTokens (pre ++ ob :: post) prev tokens).escaped = true := by
  have hn := notifyAll_throw pre ob post (tfRecord prev tokens fields)
    hpre hob
  simp [convertTokens, h12, hok, hn]

/-- Claim C4 amended witness: with observers 1, 2, 3 and observer 2
throwing, the invocations on the spec's concrete frame are exactly
observers 1 then 2, and the exception escapes. -/
theorem convertTokens_throw_stops_dispatch_witness :
    (convertTokens
        [Observer.mk 1 (fun _ => false), Observer.mk 2 (fun _ => true),
          Observer.mk 3 (fun _ => false)]
        defaultTfData demoFrame).invoked =
      [(1, tfRecord defaultTfData demoFrame ((1, 2, 3), (1, 0, 0, 0))),
        (2, tfRecord defaultTfData demoFrame ((1, 2, 3), (1, 0, 0, 0)))] ∧
    (convertTokens
        [Observer.mk 1 (fun _ => false), Observer.mk 2 (fun _ => true),
          Observer.mk 3 (fun _ => false)]
        defaultTfData demoFrame).escaped = true := by
  have h := convertTokens_throw_stops_dispatch
    [Observer.mk 1 (fun _ => false)] (Observer.mk 2 (fun _ => true))
    [Observer.mk 3 (fun _ => false)] defaultTfData demoFrame
    ((1, 2, 3), (1, 0, 0, 0)) rfl parseFields_demoFrame
    (by intro o ho; fin_cases ho; rfl) rfl
  simpa using h

/-- Claim C5: for every 12-token transform frame with non-numeric text in
a numeric field, the decode fails with a numeric-parse failure naming the
offending field index, the frame is discarded, the retained record is
reset to the default/empty value, no observer runs, and the decode cycle
continues with the next frame rather than aborting. -/
theorem convertTokens_numeric_parse_failure (obs : List Observer)
    (prev : TfData) (tokens : List String) (idx : ℕ)
    (rest : List (List String))
    (h12 : tokens.length = 12)
    (hp : parseFields tokens = Except.error idx) :
    convertTokens obs prev tokens =
      { msg := defaultTfData,
        err := some (DecodeError.numericParseFailure idx),
        invoked := [], escaped := false } ∧
    decodeCycle obs prev (tokens :: rest) =
      ((decodeCycle obs defaultTfData rest).1,
        some (DecodeError.numericParseFailure idx) ::
          (decodeCycle obs defaultTfData rest).2.1,
        (decodeCycle obs defaultTfData rest).2.2) := by
  have h1 : convertTokens obs prev tokens =
      { msg := defaultTfData,
        err := some (DecodeError.numericParseFailure idx),
        invoked := [], escaped := false } := by
    simp [convertTokens, h12, hp]
  exact ⟨h1, by simp [decodeCycle, h1]⟩

/-- Claim C5 witness: the concrete frame with `abc` in the first numeric
field fails with a numeric-parse failure naming field index 5, resets the
record, invokes no observer, and the cycle continues with the following
frame. -/
theorem convertTokens_numeric_parse_failure_witness :
    convertTokens [] defaultTfData badNumericFrame =
      { msg := defaultTfData,
        err := some (DecodeError.numericParseFailure 5),
        invoked := [], escaped := false } ∧
    decodeCycle [] defaultTfData [badNumericFrame, demoFrame] =
      ((decodeCycle [] defaultTfData [demoFrame]).1,
        some (DecodeError.numericParseFailure 5) ::
          (decodeCycle [] defaultTfData [demoFrame]).2.1,
        (decodeCycle [] defaultTfData [demoFrame]).2.2) :=
  convertTokens_numeric_parse_failure [] defaultTfData badNumericFrame 5
    [demoFrame] rfl parseFields_badNumericFrame

/-- Claim C6: decoding is pure with respect to prior converter state:
the outcome of `ConvertTokens` (record, error report, observer
invocations and their contents) does not depend on the previously
retained record, and decoding the same token sequence a second time,
starting from the state the first decode left behind, reproduces the
same record and the same observer invocations. -/
theorem convertTokens_pure (obs : List Observer) (p1 p2 : TfData)
    (tokens : List String) :
    convertTokens obs p1 tokens = convertTokens obs p2 tokens ∧
    convertTokens obs (convertTokens obs p1 tokens).msg tokens =
      convertTokens obs p1 tokens := by
  have h : ∀ q1 q2 : TfData,
      convertTokens obs q1 tokens = convertTokens obs q2 tokens := by
    intro q1 q2
    rfl
  exact ⟨h p1 p2, h (convertTokens obs p1 tokens).msg p1⟩

/-- Claim C7: the claim states that the wait before a reopen attempt
equals the configured reconnect-delay seconds value converted exactly to
nanoseconds for every configured value.  The code casts the floating
seconds value to `uint64_t` BEFORE multiplying by 10^9, so a configured
delay of 1.5 seconds produces a wait of 1 000 000 000 ns, not the
1 500 000 000 ns the claim requires, and the reconnect sleep of the run
loop uses that truncated value; this contradicts the adjacent diagnostic
that prints the delay with one decimal digit. -/
theorem reconnectDelayNs_truncates_fractional_delay :
    reconnectDelayNs (3 / 2) = 1000000000 ∧
    ((reconnectDelayNs (3 / 2) : ℚ) ≠ (3 / 2) * 1000000000) ∧
    runIteration (reconnectDelayNs (3 / 2)) false =
      [Action.runOnce, Action.spinSome, Action.printReconnect,
        Action.reconnectSleep 1000000000, Action.connect] := by
  have h : reconnectDelayNs (3 / 2) = 1000000000 := by
    norm_num [reconnectDelayNs, castToUInt64]
  refine ⟨h, ?_, ?_⟩
  · rw [h]; norm_num
  · rw [h]; rfl

/-- Claim C8: in every iteration of the run loop the fixed-rate sleep is
performed exactly when the read/decode cycle reported a healthy
connection, the reconnect sleep and reconnect attempt happen exactly when
it did not, every iteration starts with the read/decode cycle followed by
servicing of inbound messages, and the loop performs one iteration per
cycle of the schedule, stopping only when the external shutdown signal
ends the schedule, never because of a cycle outcome. -/
theorem run_loop_rate_sleep_and_no_exit (d : ℕ) (outcomes : List Bool) :
    (∀ ok : Bool,
      (Action.rateSleep ∈ runIteration d ok ↔ ok = true) ∧
      ((Action.reconnectSleep d ∈ runIteration d ok ∧
        Action.connect ∈ runIteration d ok) ↔ ok = false) ∧
      (runIteration d ok).take 2 = [Action.runOnce, Action.spinSome]) ∧
    (run d outcomes).count Action.runOnce = outcomes.length := by
  constructor
  · intro ok
    cases ok <;> simp [runIteration]
  · induction outcomes with
    | nil => rfl
    | cons ok rest ih =>
      cases ok <;>
        simp [run, runIteration, List.count_append, List.count_cons, ih]

/-- Claim C9: a BestGnssPos record is published on the gnss1 output
exactly when its frame id is `GNSS1` or `GNSS` and the gnss1 publisher
has a subscriber, on the gnss2 output exactly when its frame id is
`GNSS2` and the gnss2 publisher has a subscriber, and a record with any
other frame id is silently dropped. -/
theorem bestGnssPos_routing (d : NavSatFixData) (g1 g2 : ℕ) :
    ((GnssChannel.gnss1, d) ∈ bestGnssPosToPublishNavSatFix d g1 g2 ↔
      ((d.frame_id = "GNSS1" ∨ d.frame_id = "GNSS") ∧ 0 < g1)) ∧
    ((GnssChannel.gnss2, d) ∈ bestGnssPosToPublishNavSatFix d g1 g2 ↔
      (d.frame_id = "GNSS2" ∧ 0 < g2)) ∧
    (d.frame_id ≠ "GNSS1" → d.frame_id ≠ "GNSS" → d.frame_id ≠ "GNSS2" →
      bestGnssPosToPublishNavSatFix d g1 g2 = []) := by
  by_cases c1 : d.frame_id = "GNSS1" <;>
    by_cases c2 : d.frame_id = "GNSS" <;>
      by_cases c3 : d.frame_id = "GNSS2" <;>
        by_cases hg1 : 0 < g1 <;>
          by_cases hg2 : 0 < g2 <;>
            simp_all [bestGnssPosToPublishNavSatFix]

/-- Claim C9 witness: a record with frame id `GNSSX` is dropped even with
subscribers on both outputs, a `GNSS1` record with a subscriber reaches
the gnss1 output, and a `GNSS2` record with a subscriber reaches the
gnss2 output. -/
theorem bestGnssPos_routing_witness :
    bestGnssPosToPublishNavSatFix (NavSatFixData.mk "GNSSX" 1 2 3) 1 1 = [] ∧
    (GnssChannel.gnss1, NavSatFixData.mk "GNSS1" 1 2 3) ∈
      bestGnssPosToPublishNavSatFix (NavSatFixData.mk "GNSS1" 1 2 3) 1 1 ∧
    (GnssChannel.gnss2, NavSatFixData.mk "GNSS2" 1 2 3) ∈
      bestGnssPosToPublishNavSatFix (NavSatFixData.mk "GNSS2" 1 2 3) 1 1 := by
  refine ⟨?_, ?_, ?_⟩
  · exact (bestGnssPos_routing (NavSatFixData.mk "GNSSX" 1 2 3) 1 1).2.2
      (by decide) (by decide) (by decide)
  · exact ((bestGnssPos_routing (NavSatFixData.mk "GNSS1" 1 2 3) 1 1).1).mpr
      (by exact ⟨Or.inl rfl, Nat.one_pos⟩)
  · exact ((bestGnssPos_routing (NavSatFixData.mk "GNSS2" 1 2 3) 1 1).2.1).mpr
      (by exact ⟨rfl, Nat.one_pos⟩)

/-- Claim C10: the IMU yaw-pitch-roll observer publishes exactly for TF
records whose child frame id is `FP_IMUH` and whose parent frame id is
`FP_POI`, and every vector it publishes has yaw component exactly zero,
whatever value the quaternion-to-Euler conversion returns for the decoded
rotation. -/
theorem tfObserverImuYpr_gated_and_zero_yaw
    (quatToEul : ℚ × ℚ × ℚ × ℚ → ℚ × ℚ × ℚ) (data : TfData) :
    (tfObserverImuYpr quatToEul data = [] ↔
      ¬(data.child_frame_id = "FP_IMUH" ∧ data.frame_id = "FP_POI")) ∧
    (∀ p ∈ tfObserverImuYpr quatToEul data,
      p.2.1 = 0 ∧ p.1 = "FP_POI") := by
  by_cases h : data.child_frame_id = "FP_IMUH" ∧ data.frame_id = "FP_POI" <;>
    simp [tfObserverImuYpr, h]

/-- Claim C10 witness: for the concrete record mapping `FP_POI` to
`FP_IMUH` and a quaternion-to-Euler conversion returning the nonzero yaw
5, the published vector still has yaw component 0 and frame id
`FP_POI`. -/
theorem tfObserverImuYpr_gated_and_zero_yaw_witness :
    (("FP_POI", ((0 : ℚ), (6 : ℚ), (7 : ℚ))).2.1 = 0 ∧
      ("FP_POI", ((0 : ℚ), (6 : ℚ), (7 : ℚ))).1 = "FP_POI") ∧
    tfObserverImuYpr (fun _ => (5, 6, 7)) demoImuhTf ≠ [] := by
  constructor
  · exact (tfObserverImuYpr_gated_and_zero_yaw (fun _ => (5, 6, 7))
      demoImuhTf).2 ("FP_POI", ((0 : ℚ), (6 : ℚ), (7 : ℚ)))
      (by simp [tfObserverImuYpr, demoImuhTf])
  · intro hempty
    exact ((tfObserverImuYpr_gated_and_zero_yaw (fun _ => (5, 6, 7))
      demoImuhTf).1.mp hempty) ⟨rfl, rfl⟩

end Fixposition
